import Mathlib

/-!
Verification of the FluentAI frontend session logic against its
natural-language specification.

The embedding below translates the extractable logic of the repository:
the answer normalization and lesson-session flow of the lessons module
(`src/unnamed/part_000`, `initLesson` / `setupTimer` /
`renderCurrentQuestion` / `handleAnswer`), the speaking module
(`src/unnamed/part_001`, `sendTextResponse` / `handleRoleplayResponse` /
`showSessionComplete` / `handleFreeTalkResponse`), and the API client and
`Timer` component (`src/frontend/js/api.js`).

JavaScript strings are modelled as Lean `String`; the `trim` /
`toLowerCase` operations are modelled on their ASCII behaviour, which is
the fragment the lesson catalog exercises.  JavaScript numbers appearing
in score arithmetic are modelled as `ℚ` (exact arithmetic).
-/

namespace FluentAI

/-! ## JavaScript values and string canonicalization

`handleAnswer` (lessons module, lines 631–678) compares a submitted value
against the stored `question.correct_answer` after `String(·)` conversion,
`toLowerCase()` and `trim()`.  A JS value is modelled by what `String(·)`
turns it into: either a genuine JS string, or any other value (`null`,
a number, a boolean, …) together with its text conversion. -/

/-- A JavaScript value as seen by the answer comparison: a string, or a
non-string value represented by its `String(·)` conversion. -/
inductive JSVal where
  | str (s : String)
  | prim (text : String)
deriving DecidableEq, Repr

/-- The `String(v)` conversion of a JS value. -/
def JSVal.toText : JSVal → String
  | .str s => s
  | .prim t => t

/-- The JS `null` value; `String(null)` is `"null"`. -/
def jsNull : JSVal := .prim "null"

/-- Whitespace removed by `String.prototype.trim` (ASCII fragment). -/
def jsIsSpace (c : Char) : Bool :=
  c == ' ' || c == '\t' || c == '\n' || c == '\r'

/-- Per-character model of `String.prototype.toLowerCase` (ASCII case
mapping, which `Char.toLower` implements exactly). -/
def jsToLower (c : Char) : Char := Char.toLower c

/-- Removal of leading and trailing whitespace from a character list,
modelling `String.prototype.trim`. -/
def trimChars (l : List Char) : List Char :=
  ((l.dropWhile jsIsSpace).reverse.dropWhile jsIsSpace).reverse

/-- The canonical form computed by the code (lines 657–658):
`String(v).toLowerCase().trim()` — lower-case first, then trim. -/
def canon (s : String) : String :=
  ⟨trimChars (s.data.map jsToLower)⟩

/-- The canonical form in the specification's order of words: trim the
surrounding whitespace first, then compare case-insensitively (modelled
by lower-casing after the trim). -/
def canonSpec (s : String) : String :=
  ⟨(trimChars s.data).map jsToLower⟩

/-- Decoding of the stored correct answer (lines 650–655): when the value
is a string, `JSON.parse` is attempted inside `try { } catch { }`; on
success the decoded value replaces it, on failure the raw string is kept.
Non-string values are used as they are.  The `parse` argument abstracts
the `JSON.parse` builtin. -/
def decodeCorrect (parse : String → Except String JSVal) : JSVal → JSVal
  | .str s =>
    match parse s with
    | .ok v => v
    | .error _ => .str s
  | v => v

/-- The correctness verdict of `handleAnswer` (lines 649–661):
`String(answer).toLowerCase().trim() === String(correctAnswer).toLowerCase().trim()`
after the decode step. -/
def checkAnswer (parse : String → Except String JSVal)
    (answer correct : JSVal) : Bool :=
  canon answer.toText == canon (decodeCorrect parse correct).toText

/-- The verdict computation with the exception behaviour made explicit:
`JSON.parse` is the only operation in the comparison that can throw, and
the surrounding `try { } catch { }` swallows that throw, so the
computation as a whole always returns a Boolean. -/
def checkAnswerE (parse : String → Except String JSVal)
    (answer correct : JSVal) : Except String Bool :=
  let decoded : Except String JSVal :=
    match correct with
    | .str s =>
      match parse s with
      | .ok v => .ok v
      | .error _ => .ok (.str s)
    | v => .ok v
  decoded.map fun c => canon answer.toText == canon c.toText

/-- Model of the `JSON.parse` builtin (external to the repository),
restricted to the scalar payloads the question catalog stores in
`correct_answer`: a quoted string without escapes, `null`, `true`,
`false`, or an unsigned integer.  Anything else is treated as a parse
error. -/
def jsonParse (s : String) : Except String JSVal :=
  let cs := trimChars s.data
  if cs = "null".data then .ok (.prim "null")
  else if cs = "true".data then .ok (.prim "true")
  else if cs = "false".data then .ok (.prim "false")
  else if 2 ≤ cs.length ∧ cs.head? = some '"' ∧ cs.getLast? = some '"'
      ∧ ((cs.drop 1).dropLast.all fun c => c ≠ '"' ∧ c ≠ '\\') then
    .ok (.str ⟨(cs.drop 1).dropLast⟩)
  else if cs ≠ [] ∧ (cs.all Char.isDigit) ∧ (cs.head? = some '0' → cs.length = 1) then
    .ok (.prim ⟨cs⟩)
  else .error "Unexpected token"

/-! ### Commutation of trimming and lower-casing -/

theorem jsIsSpace_eq_false_of_lower {c : Char}
    (h : 96 < c.toNat) : jsIsSpace c = false := by
  have h1 : c ≠ ' ' := by intro e; subst e; simp at h
  have h2 : c ≠ '\t' := by intro e; subst e; simp at h
  have h3 : c ≠ '\n' := by intro e; subst e; simp at h
  have h4 : c ≠ '\r' := by intro e; subst e; simp at h
  simp [jsIsSpace, h1, h2, h3, h4]

theorem jsIsSpace_eq_false_of_upper {c : Char}
    (h1 : 65 ≤ c.toNat) (h2 : c.toNat ≤ 90) : jsIsSpace c = false := by
  have e1 : c ≠ ' ' := by intro e; subst e; simp at h1
  have e2 : c ≠ '\t' := by intro e; subst e; simp at h1
  have e3 : c ≠ '\n' := by intro e; subst e; simp at h1
  have e4 : c ≠ '\r' := by intro e; subst e; simp at h1
  simp [jsIsSpace, e1, e2, e3, e4]

theorem toNat_ofNat_of_valid {n : Nat} (h : n.isValidChar) :
    (Char.ofNat n).toNat = n := by
  rw [Char.ofNat, dif_pos h]
  rfl

/-- Lower-casing never turns a character into whitespace or out of it. -/
theorem jsIsSpace_jsToLower (c : Char) :
    jsIsSpace (jsToLower c) = jsIsSpace c := by
  unfold jsToLower Char.toLower
  by_cases h : c.toNat ≥ 65 ∧ c.toNat ≤ 90
  · have hv : (c.toNat + 32).isValidChar := by
      left; omega
    have hx : (Char.ofNat (c.toNat + 32)).toNat = c.toNat + 32 :=
      toNat_ofNat_of_valid hv
    simp only [h, and_self, if_true]
    rw [jsIsSpace_eq_false_of_lower (by omega),
      jsIsSpace_eq_false_of_upper h.1 h.2]
  · simp only [h, if_false]

theorem trimChars_map_jsToLower (l : List Char) :
    trimChars (l.map jsToLower) = (trimChars l).map jsToLower := by
  have hp : (jsIsSpace ∘ jsToLower) = jsIsSpace := by
    funext c; exact jsIsSpace_jsToLower c
  unfold trimChars
  rw [List.dropWhile_map, hp, ← List.map_reverse, List.dropWhile_map, hp,
    ← List.map_reverse]

theorem canon_eq_canonSpec (s : String) : canon s = canonSpec s := by
  simp [canon, canonSpec, trimChars_map_jsToLower]

/-! ## The lesson session (lessons module)

The module-level state of the lessons module — `currentQuestions`,
`currentIndex`, `answers`, the per-question `lessonTimer` and the DOM
option buttons — is modelled as an explicit record.  The browser events
that mutate it are: the learner clicking an option button
(`window.handleAnswer` with the option string), the per-question timer
expiring (`setupTimer`'s `onComplete` calling `handleAnswer(null)`), and
the 1-second `setTimeout` continuation inside `handleAnswer` running
(`currentIndex++`, timer restart for sprints, re-render). -/

/-- A catalog question as consumed by `handleAnswer`: identifier, the
prompt text (`question.question || question.sentence || ''`), the stored
correct answer, and the option list. -/
structure Question where
  id : Nat
  questionText : String
  correct_answer : JSVal
  options : List String
deriving DecidableEq, Repr

/-- The record pushed onto `answers` by `handleAnswer` (lines 640–647). -/
structure AnswerRec where
  question_id : Nat
  user_answer : JSVal
  time_taken_ms : Nat
  question_text : String
  correct_answer : JSVal
  options : List String
deriving DecidableEq, Repr

/-- The mutable state of the lessons module during one lesson. -/
structure LessonState where
  questions : List Question
  currentIndex : Nat
  answers : List AnswerRec
  /-- Number of `setTimeout` advance continuations scheduled by
  `handleAnswer` that have not yet run. -/
  pending : Nat
  /-- Whether the option buttons are clickable (`showResult` disables
  them after an answer; `renderCurrentQuestion` renders fresh ones). -/
  buttonsEnabled : Bool
  /-- Whether the per-question timer is counting down. -/
  timerOn : Bool
  /-- Whether the lesson type is `grammar-sprint` or `word-sprint`
  (the types for which a per-question timer is configured). -/
  sprint : Bool
deriving DecidableEq, Repr

/-- The `renderCurrentQuestion` function (lines 607–628): past the last
question it calls `submitLesson` (which stops the timer); otherwise it
renders the question under the cursor with fresh, enabled buttons. -/
def renderCurrentQuestionS (s : LessonState) : LessonState :=
  if s.questions.length ≤ s.currentIndex then
    { s with timerOn := false, buttonsEnabled := false }
  else
    { s with buttonsEnabled := true }

/-- The body of `handleAnswer` (lines 631–667) up to its `setTimeout`:
if no question is under the cursor it returns; otherwise it records the
answer, disables the buttons (`showResult`) and schedules the advance
continuation. -/
def pushAnswer (s : LessonState) (v : JSVal) (t : Nat) : LessonState :=
  match s.questions[s.currentIndex]? with
  | none => s
  | some q =>
    { s with
      answers := s.answers ++
        [⟨q.id, v, t, q.questionText, q.correct_answer, q.options⟩],
      buttonsEnabled := false,
      pending := s.pending + 1 }

/-- A browser event affecting the lesson state. -/
inductive LEvent where
  /-- The learner clicks an option button, submitting `v`;
  `t` is `Date.now() - startTime`. -/
  | submit (v : JSVal) (t : Nat)
  /-- The per-question timer reaches zero: the `Timer` stops itself and
  `setupTimer`'s `onComplete` calls `handleAnswer(null)`. -/
  | timerFire (t : Nat)
  /-- A `setTimeout` continuation from `handleAnswer` runs (lines
  667–677): `currentIndex++`, the sprint timer is reset and restarted,
  and the next question is rendered (or the lesson submitted). -/
  | advance
deriving DecidableEq, Repr

/-- One step of the lesson state machine; `none` when the event cannot
fire in the given state (disabled buttons swallow clicks, a stopped
timer does not expire, no continuation is pending). -/
def lstep (s : LessonState) : LEvent → Option LessonState
  | .submit v t =>
    if s.buttonsEnabled then some (pushAnswer s v t) else none
  | .timerFire t =>
    if s.timerOn then some (pushAnswer { s with timerOn := false } jsNull t)
    else none
  | .advance =>
    if s.pending = 0 then none
    else
      let s1 := { s with currentIndex := s.currentIndex + 1,
                         pending := s.pending - 1 }
      let s2 := if s1.sprint then { s1 with timerOn := true } else s1
      some (renderCurrentQuestionS s2)

/-- Replay of a list of browser events; an event whose guard fails
leaves the state unchanged. -/
def runEvents (s : LessonState) : List LEvent → LessonState
  | [] => s
  | e :: es => runEvents ((lstep s e).getD s) es

/-- The lesson state set up by `initLesson` (lines 549–577) for a fetched
question list: cursor `0`, empty answers, the per-question timer started
for sprint types, and the first question rendered. -/
def initState (qs : List Question) (sprint : Bool) : LessonState :=
  renderCurrentQuestionS
    { questions := qs, currentIndex := 0, answers := [], pending := 0,
      buttonsEnabled := false, timerOn := sprint, sprint := sprint }

/-- A fetched lesson (the relevant fields of the `api.get…` results). -/
structure Lesson where
  lesson_id : Nat
  questions : List Question
  time_per_question : Option Nat
deriving DecidableEq, Repr

/-- Outcome of `initLesson` (lines 526–585). -/
inductive InitOutcome where
  /-- The `api` call threw; the `catch` shows a "Failed to load lesson"
  toast and no session starts. -/
  | loadFailed
  /-- Zero questions: the container shows the "No Questions Available"
  empty-state markup and the function returns (lines 555–565). -/
  | emptyState
  /-- The session is running with the given state. -/
  | started (s : LessonState)
deriving DecidableEq, Repr

/-- The `initLesson` entry point.  The fetched lesson (or the api
exception) is passed explicitly; `ty` is the lesson type argument. -/
def initLesson (fetched : Except String Lesson) (ty : String) : InitOutcome :=
  match fetched with
  | .error _ => .loadFailed
  | .ok lesson =>
    if lesson.questions.length = 0 then .emptyState
    else
      let sprint := ty == "grammar-sprint" || ty == "word-sprint"
      .started (initState lesson.questions sprint)

/-! ## The Timer component (`src/frontend/js/api.js`, app module lines 667–716)

The DOM element and the callbacks are outside the state; `completions`
counts the invocations of the completion callback (`onComplete`). -/

/-- State of a `Timer` instance: `intervalSet` models
`this.interval !== null`. -/
structure Timer where
  duration : Int
  remaining : Int
  intervalSet : Bool
  completions : Nat
deriving DecidableEq, Repr

/-- The `Timer` constructor. -/
def Timer.new (d : Int) : Timer :=
  { duration := d, remaining := d, intervalSet := false, completions := 0 }

/-- The `start` method: installs the interval. -/
def Timer.start (tm : Timer) : Timer := { tm with intervalSet := true }

/-- The `stop` method: clears the interval when one is installed,
otherwise does nothing. -/
def Timer.stop (tm : Timer) : Timer := { tm with intervalSet := false }

/-- One interval tick: decrement `remaining`, and at zero or below stop
the interval and invoke the completion callback.  Without an installed
interval no tick occurs. -/
def Timer.tick (tm : Timer) : Timer :=
  if tm.intervalSet then
    let r := tm.remaining - 1
    if r ≤ 0 then
      { tm with remaining := r, intervalSet := false,
                completions := tm.completions + 1 }
    else { tm with remaining := r }
  else tm

/-- The `reset` method: stop, then restore `remaining` to the original
duration. -/
def Timer.reset (tm : Timer) : Timer :=
  { tm.stop with remaining := tm.duration }

/-- Events that can reach a running timer after `start`. -/
inductive TEvent where
  | tick
  | stop
  | reset
deriving DecidableEq, Repr

/-- Replay of timer events. -/
def Timer.run (tm : Timer) : List TEvent → Timer
  | [] => tm
  | .tick :: es => (tm.tick).run es
  | .stop :: es => (tm.stop).run es
  | .reset :: es => (tm.reset).run es

/-! ## The conversation session (speaking module)

The module state consists of `conversationHistory` plus the rendered
turn counter, feedback panel and completion screen.  The AI provider
response arriving at `sendTextResponse` is either a transport failure
(`fetch` rejected — the `catch` branch) or a parsed JSON body whose
fields may be missing when the backend answered with an error object. -/

/-- Per-turn sub-scores (`analysis` object).  JS numbers are modelled
as `ℚ`. -/
structure Analysis where
  fluency_score : ℚ
  grammar_score : ℚ
  vocabulary_score : ℚ
deriving DecidableEq, Repr

/-- The parsed JSON body returned by `api.roleplayRespond`.  `none`
models an absent (`undefined`) field, as in an error response body. -/
structure RoleplayPayload where
  user_message : Option String
  turn : Option Nat
  analysis : Option Analysis
  ai_message : Option String
  is_complete : Bool
  hint : Option String
  xp_earned : Option Int
deriving DecidableEq, Repr

/-- One chat bubble in `conversationHistory`; `text` is `none` when
`addMessage` was called with `undefined`. -/
structure ConvMsg where
  text : Option String
  isAi : Bool
deriving DecidableEq, Repr

/-- The speaking-module state touched by a roleplay turn. -/
structure ConvState where
  history : List ConvMsg
  /-- Content of the `current-turn` element (`none` renders as
  `undefined`). -/
  turnDisplay : Option Nat
  /-- The analysis currently shown in the feedback panel. -/
  feedbackShown : Option Analysis
  /-- An AI reply scheduled by the 500 ms `setTimeout`, not yet
  appended. -/
  pendingAi : Option String
  /-- Whether `showSessionComplete` has replaced the conversation UI. -/
  completed : Bool
deriving DecidableEq, Repr

/-- The `addMessage` function (lines 128–139): appends a bubble to
`conversationHistory`. -/
def addMessage (st : ConvState) (text : Option String) (isAi : Bool) :
    ConvState :=
  { st with history := st.history ++ [⟨text, isAi⟩] }

/-- The `handleRoleplayResponse` function (lines 205–231).  Returns the
state after the call together with `some msg` when the body threw
(`showFeedback` dereferences `analysis.fluency_score`, a `TypeError`
when `analysis` is absent); the throw is caught by the caller. -/
def handleRoleplayResponse (st : ConvState) (r : RoleplayPayload) :
    ConvState × Option String :=
  let st1 := addMessage st r.user_message false
  let st2 := { st1 with turnDisplay := r.turn }
  match r.analysis with
  | none => (st2, some "TypeError")
  | some a =>
    let st3 := { st2 with feedbackShown := some a }
    let st4 :=
      if !r.is_complete && r.ai_message.isSome then
        { st3 with pendingAi := r.ai_message }
      else st3
    if r.is_complete then ({ st4 with completed := true }, none)
    else (st4, none)

/-- Outcome of the `api.roleplayRespond` fetch. -/
inductive RespondResult where
  /-- The fetch rejected (network failure / timeout). -/
  | netFail
  /-- The fetch resolved and `r.json()` produced this body. -/
  | payload (r : RoleplayPayload)
deriving DecidableEq, Repr

/-- The `sendTextResponse` handler (lines 183–203).  Returns the state
after the call and the toast message shown, if any ("Please enter a
message" for blank input, "Failed to send message" when the call or the
response handler threw). -/
def sendTextResponse (st : ConvState) (inputValue : String)
    (resp : RespondResult) : ConvState × Option String :=
  let text : String := ⟨trimChars inputValue.data⟩
  if text = "" then (st, some "Please enter a message")
  else
    match resp with
    | .netFail => (st, some "Failed to send message")
    | .payload r =>
      match handleRoleplayResponse st r with
      | (st1, some _) => (st1, some "Failed to send message")
      | (st1, none) => (st1, none)

/-- The `Math.round` builtin on exact values: round half toward
positive infinity. -/
def jsRound (q : ℚ) : Int := ⌊q + 1 / 2⌋

/-- The numbers rendered by `showSessionComplete` (lines 264–307). -/
structure ResultScreen where
  avgScore : Int
  fluencyShown : Int
  grammarShown : Int
  vocabShown : Int
  xpShown : Int
deriving DecidableEq, Repr

/-- The `showSessionComplete` rendering (lines 264–307): the headline
score is `Math.round((fluency + grammar + vocabulary) / 3)` over the
final analysis; `result.xp_earned || 40` feeds the XP stat. -/
def showSessionComplete (analysis : Analysis) (xp_earned : Option Int) :
    ResultScreen :=
  { avgScore := jsRound ((analysis.fluency_score + analysis.grammar_score
        + analysis.vocabulary_score) / 3),
    fluencyShown := jsRound analysis.fluency_score,
    grammarShown := jsRound analysis.grammar_score,
    vocabShown := jsRound analysis.vocabulary_score,
    xpShown := match xp_earned with
      | some x => if x = 0 then 40 else x
      | none => 40 }

/-- Running averages reported by the free-talk backend
(`result.session_averages`). -/
structure SessionAverages where
  fluency : ℚ
  grammar : ℚ
  vocabulary : ℚ
deriving DecidableEq, Repr

/-- The running average displayed by `handleFreeTalkResponse`
(lines 435–452): `Math.round((fluency + grammar + vocabulary) / 3)`. -/
def freeTalkAvgShown (a : SessionAverages) : Int :=
  jsRound ((a.fluency + a.grammar + a.vocabulary) / 3)

/-! ## CEFR levels and the threshold table (dashboard module, lines 316–323) -/

/-- The six CEFR proficiency levels. -/
inductive CEFR where
  | A1
  | A2
  | B1
  | B2
  | C1
  | C2
deriving DecidableEq, Repr

/-- Rank of a level in the A1 < A2 < B1 < B2 < C1 < C2 order. -/
def CEFR.rank : CEFR → Nat
  | .A1 => 0
  | .A2 => 1
  | .B1 => 2
  | .B2 => 3
  | .C1 => 4
  | .C2 => 5

/-- One row of the dashboard's `levelThresholds` object. -/
structure LevelInfo where
  min : Nat
  max : Nat
  /-- The `next` field; `none` models the `'Max'` marker after C2. -/
  next : Option CEFR
deriving DecidableEq, Repr

/-- The `levelThresholds` table of `renderDashboard`. -/
def levelThresholds : CEFR → LevelInfo
  | .A1 => ⟨0, 500, some .A2⟩
  | .A2 => ⟨500, 1500, some .B1⟩
  | .B1 => ⟨1500, 3500, some .B2⟩
  | .B2 => ⟨3500, 7000, some .C1⟩
  | .C1 => ⟨7000, 12000, some .C2⟩
  | .C2 => ⟨12000, 20000, none⟩

/-- Modelled from the spec: the backend level lookup (the scoring
service is not under `src/`; the frontend only renders `result.new_level`
in `showResults`, lines 787–796) selects the level whose threshold range
contains the post-award XP total; totals at or beyond the table cap stay
at C2. -/
def lookupLevel (xp : Nat) : CEFR :=
  if xp < (levelThresholds .A1).max then .A1
  else if xp < (levelThresholds .A2).max then .A2
  else if xp < (levelThresholds .B1).max then .B1
  else if xp < (levelThresholds .B2).max then .B2
  else if xp < (levelThresholds .C1).max then .C1
  else .C2

/-! ## The API client `request` method (`src/frontend/js/api.js`, lines 39–75) -/

/-- The browser's `localStorage` entries used by the client. -/
structure Storage where
  token : Option String
  user : Option String
deriving DecidableEq, Repr

/-- The `clearToken` method (lines 21–24): removes both entries. -/
def clearToken (_ : Storage) : Storage := ⟨none, none⟩

/-- The `isAuthenticated` method (lines 35–37): `!!this.getToken()`. -/
def isAuthenticated (st : Storage) : Bool := st.token.isSome

/-- A parsed JSON response body; only `detail` is inspected by
`request`. -/
structure Payload where
  detail : Option String
  rest : String
deriving DecidableEq, Repr

/-- The outcome of the `fetch` inside `request`. -/
inductive FetchOutcome where
  /-- `fetch` rejected (network failure). -/
  | netError (msg : String)
  /-- A response arrived with this status; `body` is the result of
  `response.json()`, which can itself fail. -/
  | response (status : Nat) (body : Except String Payload)
deriving Repr

/-- Errors thrown by `request` to its caller. -/
inductive ReqError where
  /-- The rethrown fetch rejection. -/
  | network (msg : String)
  /-- `throw new Error('Unauthorized')` on a 401. -/
  | unauthorized
  /-- `response.json()` threw. -/
  | badJson (msg : String)
  /-- `throw new Error(data.detail || 'Request failed')`. -/
  | requestFailed (msg : String)
deriving DecidableEq, Repr

/-- The `request` method (lines 39–75): on a 401 it clears the token and
cached user and throws `Unauthorized` before reading the body; otherwise
it parses the body, throws `data.detail || 'Request failed'` for a
non-ok status, and returns the data for an ok one.  All other failures
leave the storage untouched. -/
def request (st : Storage) (f : FetchOutcome) :
    Storage × Except ReqError Payload :=
  match f with
  | .netError msg => (st, .error (.network msg))
  | .response status body =>
    if status = 401 then (clearToken st, .error .unauthorized)
    else
      match body with
      | .error msg => (st, .error (.badJson msg))
      | .ok data =>
        if 200 ≤ status ∧ status ≤ 299 then (st, .ok data)
        else
          (st, .error (.requestFailed
            (match data.detail with
              | some d => if d = "" then "Request failed" else d
              | none => "Request failed")))

/-! ## Helper lemmas -/

theorem renderCurrentQuestionS_currentIndex (s : LessonState) :
    (renderCurrentQuestionS s).currentIndex = s.currentIndex := by
  unfold renderCurrentQuestionS
  split <;> rfl

theorem lstep_advance_of_pending (s : LessonState) (h : ¬s.pending = 0) :
    ∃ s2, lstep s .advance = some s2 ∧
      s2.currentIndex = s.currentIndex + 1 := by
  simp only [lstep, h, if_false]
  refine ⟨_, rfl, ?_⟩
  rw [renderCurrentQuestionS_currentIndex]
  split <;> rfl

/-- A sample catalog question (one of the seeded `gap_fill` rows). -/
def sampleQuestion : Question :=
  ⟨3, "Nice to ___ you!", .str "\"meet\"", ["meet", "see", "look", "watch"]⟩

/-! ## Claim C1 -/

/-- C1: the answer-correctness verdict of `handleAnswer` is true exactly
when the submitted value and the stored correct answer — after decoding
the correct answer from its JSON wrapper when decoding succeeds (raw
value otherwise), converting both to text, trimming surrounding
whitespace, and comparing case-insensitively — are equal strings. -/
theorem answer_verdict_iff_canonical_eq
    (parse : String → Except String JSVal) (answer correct : JSVal) :
    checkAnswer parse answer correct = true ↔
      canonSpec answer.toText =
        canonSpec (decodeCorrect parse correct).toText := by
  simp [checkAnswer, canon_eq_canonSpec]

/-! ## Claim C6 -/

/-- C6: the normalization/comparison step never raises — for every
submitted answer and every stored payload the computation returns a
Boolean — and when the payload is a string that fails to decode, the
verdict falls back to comparing the raw texts. -/
theorem answer_check_total_and_raw_fallback
    (parse : String → Except String JSVal) (answer correct : JSVal) :
    (∃ b, checkAnswerE parse answer correct = .ok b) ∧
    (∀ s e, correct = .str s → parse s = .error e →
      checkAnswer parse answer correct =
        (canon answer.toText == canon s)) := by
  constructor
  · cases correct with
    | str s =>
      cases hp : parse s with
      | ok v =>
        exact ⟨canon answer.toText == canon v.toText,
          by simp [checkAnswerE, hp, Except.map]⟩
      | error e =>
        exact ⟨canon answer.toText == canon s,
          by simp [checkAnswerE, hp, Except.map, JSVal.toText]⟩
    | prim t =>
      exact ⟨canon answer.toText == canon t,
        by simp [checkAnswerE, Except.map, JSVal.toText]⟩
  · rintro s e rfl hp
    simp [checkAnswer, decodeCorrect, hp, JSVal.toText]

/-- Witness for C6 at a malformed payload (an unterminated JSON
string). -/
theorem answer_check_total_and_raw_fallback_witness :
    (∃ b, checkAnswerE jsonParse (.str "x") (.str "\"abc") = .ok b) ∧
    checkAnswer jsonParse (.str "x") (.str "\"abc") =
      (canon "x" == canon "\"abc") :=
  ⟨(answer_check_total_and_raw_fallback jsonParse (.str "x")
      (.str "\"abc")).1,
   (answer_check_total_and_raw_fallback jsonParse (.str "x")
      (.str "\"abc")).2 "\"abc" "Unexpected token" rfl (by rfl)⟩

/-! ## Claim C2 -/

/-- C2 counterexample: a stored correct answer whose JSON payload is the
string `"null"` makes the timed-out submission (`handleAnswer(null)`,
compared as `String(null) = "null"`) score as CORRECT, so the timed-out
answer is not always scored incorrect. -/
theorem timeout_null_scored_correct_cex :
    checkAnswer jsonParse jsNull (JSVal.str "\"null\"") = true := by
  decide

/-- C2 as amended: when the per-question timer expires, the session
records an answer as if `null` was submitted; that answer is scored
incorrect whenever the canonicalized correct answer differs from the
text `"null"`; and the scheduled advance still moves the cursor forward
without learner input. -/
theorem timer_expiry_records_null_and_advances
    (parse : String → Except String JSVal) (s : LessonState)
    (q : Question) (t : Nat)
    (hT : s.timerOn = true)
    (hq : s.questions[s.currentIndex]? = some q)
    (hne : canon (decodeCorrect parse q.correct_answer).toText ≠ "null") :
    ∃ s1, lstep s (.timerFire t) = some s1 ∧
      s1.answers = s.answers ++
        [⟨q.id, jsNull, t, q.questionText, q.correct_answer, q.options⟩] ∧
      checkAnswer parse jsNull q.correct_answer = false ∧
      ∃ s2, lstep s1 .advance = some s2 ∧
        s2.currentIndex = s.currentIndex + 1 := by
  set s1 := pushAnswer { s with timerOn := false } jsNull t with hs1def
  have ha : s1.answers = s.answers ++
      [⟨q.id, jsNull, t, q.questionText, q.correct_answer, q.options⟩] := by
    simp [hs1def, pushAnswer, hq]
  have hpend : s1.pending = s.pending + 1 := by
    simp [hs1def, pushAnswer, hq]
  have hidx : s1.currentIndex = s.currentIndex := by
    simp [hs1def, pushAnswer, hq]
  refine ⟨s1, ?_, ha, ?_, ?_⟩
  · simp [lstep, hT, hs1def]
  · have hcn : canon (JSVal.toText jsNull) = "null" := by decide
    have hb : (canon (JSVal.toText jsNull) ==
        canon (decodeCorrect parse q.correct_answer).toText) = false := by
      rw [hcn]
      exact beq_eq_false_iff_ne.mpr fun h => hne h.symm
    simpa [checkAnswer] using hb
  · have h2 := lstep_advance_of_pending s1 (by simp [hpend])
    rw [← hidx]
    exact h2

/-- Witness for the amended C2 on a freshly started one-question
sprint. -/
theorem timer_expiry_records_null_and_advances_witness :
    ∃ s1, lstep (initState [sampleQuestion] true) (.timerFire 5) = some s1 ∧
      s1.answers = (initState [sampleQuestion] true).answers ++
        [⟨sampleQuestion.id, jsNull, 5, sampleQuestion.questionText,
          sampleQuestion.correct_answer, sampleQuestion.options⟩] ∧
      checkAnswer jsonParse jsNull sampleQuestion.correct_answer = false ∧
      ∃ s2, lstep s1 .advance = some s2 ∧
        s2.currentIndex = (initState [sampleQuestion] true).currentIndex + 1 :=
  timer_expiry_records_null_and_advances jsonParse
    (initState [sampleQuestion] true) sampleQuestion 5
    (by decide) (by decide) (by decide)

/-! ## Claim C3 -/

/-- C3 counterexample: asking for a lesson whose question sequence is
empty does not fail with an `InvalidSession` error — `initLesson`
renders the "No Questions Available" empty-state and returns, raising
nothing (in particular the outcome is not the thrown-error outcome). -/
theorem empty_lesson_no_error_cex :
    initLesson (.ok ⟨0, [], none⟩) "daily" = InitOutcome.emptyState ∧
    initLesson (.ok ⟨0, [], none⟩) "daily" ≠ InitOutcome.loadFailed := by
  decide

/-- C3 as amended: creating a lesson session from an empty question
sequence does not start a session and raises no error: the code renders
a "No Questions Available" empty-state message and aborts
initialization. -/
theorem empty_lesson_renders_empty_state
    (lesson : Lesson) (ty : String) (h : lesson.questions = []) :
    initLesson (.ok lesson) ty = .emptyState := by
  simp [initLesson, h]

/-- Witness for the amended C3. -/
theorem empty_lesson_renders_empty_state_witness :
    initLesson (.ok ⟨7, [], some 20⟩) "grammar-sprint" = .emptyState :=
  empty_lesson_renders_empty_state ⟨7, [], some 20⟩ "grammar-sprint" rfl

/-! ## Claim C4 -/

/-- Numeric flag of a Boolean, for counting enabled answer sources. -/
def bflag : Bool → Nat
  | true => 1
  | false => 0

theorem bflag_le_one (b : Bool) : bflag b ≤ 1 := by
  cases b <;> simp [bflag]

/-- The inductive invariant of the lesson machine: the record count
equals the cursor plus the pending advance continuations, and together
with the currently enabled answer sources (clickable buttons, running
timer) it never exceeds twice the visited portion of the catalog. -/
def LessonInv (s : LessonState) : Prop :=
  s.answers.length = s.currentIndex + s.pending ∧
  s.answers.length + bflag s.buttonsEnabled + bflag s.timerOn
    ≤ 2 * min (s.currentIndex + 1) s.questions.length

theorem initState_inv (qs : List Question) (sprint : Bool) :
    LessonInv (initState qs sprint) := by
  unfold initState renderCurrentQuestionS
  simp only [LessonInv, bflag]
  split <;> cases sprint <;> simp <;> omega

theorem lstep_preserves_inv (s : LessonState) (e : LEvent)
    (h : LessonInv s) : LessonInv ((lstep s e).getD s) := by
  obtain ⟨qs, idx, ans, pend, be, ti, sp⟩ := s
  simp only [LessonInv] at h ⊢
  obtain ⟨h1, h2⟩ := h
  have hbe := bflag_le_one be
  have hti := bflag_le_one ti
  cases e with
  | submit v t =>
    cases hq : qs[idx]? with
    | none =>
      cases be <;> cases ti <;>
        simp [lstep, pushAnswer, hq, bflag] at h2 ⊢ <;> omega
    | some q =>
      have hlt : idx < qs.length := (List.getElem?_eq_some.mp hq).1
      cases be <;> cases ti <;>
        simp [lstep, pushAnswer, hq, bflag] at h2 ⊢ <;> omega
  | timerFire t =>
    cases hq : qs[idx]? with
    | none =>
      cases be <;> cases ti <;>
        simp [lstep, pushAnswer, hq, bflag] at h2 ⊢ <;> omega
    | some q =>
      have hlt : idx < qs.length := (List.getElem?_eq_some.mp hq).1
      cases be <;> cases ti <;>
        simp [lstep, pushAnswer, hq, bflag] at h2 ⊢ <;> omega
  | advance =>
    by_cases hp : pend = 0
    · cases be <;> cases ti <;>
        simp [lstep, hp, bflag] at h2 ⊢ <;> omega
    · cases sp <;> cases be <;> cases ti <;>
        simp [lstep, hp, renderCurrentQuestionS, bflag] at h2 ⊢ <;>
        split_ifs <;> simp [bflag] <;> omega

theorem runEvents_preserves_inv (es : List LEvent) :
    ∀ s : LessonState, LessonInv s → LessonInv (runEvents s es) := by
  induction es with
  | nil => intro s h; exact h
  | cons e es ih =>
    intro s h
    exact ih _ (lstep_preserves_inv s e h)

theorem lstep_questions (s : LessonState) (e : LEvent) :
    ((lstep s e).getD s).questions = s.questions := by
  cases e with
  | submit v t =>
    by_cases hb : s.buttonsEnabled
    · cases hq : s.questions[s.currentIndex]? <;>
        simp [lstep, hb, pushAnswer, hq]
    · simp [lstep, hb]
  | timerFire t =>
    by_cases ht : s.timerOn
    · cases hq : s.questions[s.currentIndex]? <;>
        simp [lstep, ht, pushAnswer, hq]
    · simp [lstep, ht]
  | advance =>
    by_cases hp : s.pending = 0
    · simp [lstep, hp]
    · simp only [lstep, hp, if_false, Option.getD_some]
      unfold renderCurrentQuestionS
      split_ifs <;> rfl

theorem runEvents_questions (es : List LEvent) :
    ∀ s : LessonState, (runEvents s es).questions = s.questions := by
  induction es with
  | nil => intro s; rfl
  | cons e es ih =>
    intro s
    rw [runEvents, ih, lstep_questions]

/-- C4 counterexample: in a one-question sprint the learner submits an
answer and the timer expires during the 1-second feedback window (before
the scheduled advance runs); `handleAnswer` fires twice for the same
question, so the session holds 2 answer records for 1 question while the
cursor is still 0. -/
theorem record_count_exceeds_questions_cex :
    (runEvents (initState [sampleQuestion] true)
        [.submit (.str "meet") 3000, .timerFire 20000]).answers.length = 2 ∧
    (initState [sampleQuestion] true).questions.length = 1 ∧
    (runEvents (initState [sampleQuestion] true)
        [.submit (.str "meet") 3000, .timerFire 20000]).currentIndex = 0 := by
  decide

/-- C4 as amended: at every reachable point the record count equals the
cursor plus the number of scheduled-but-unexecuted advance continuations
(so the cursor equals the record count whenever no advance is pending,
and never exceeds it), and the record count never exceeds twice the
question count (an answer racing a timer expiry can record two answers
for one question). -/
theorem session_cursor_records_relation (qs : List Question)
    (sprint : Bool) (es : List LEvent) :
    (runEvents (initState qs sprint) es).answers.length =
        (runEvents (initState qs sprint) es).currentIndex +
          (runEvents (initState qs sprint) es).pending ∧
    (runEvents (initState qs sprint) es).answers.length ≤
      2 * qs.length := by
  have hinv := runEvents_preserves_inv es (initState qs sprint)
    (initState_inv qs sprint)
  have hq : (runEvents (initState qs sprint) es).questions = qs := by
    rw [runEvents_questions]
    unfold initState renderCurrentQuestionS
    split <;> rfl
  obtain ⟨h1, h2⟩ := hinv
  rw [hq] at h2
  exact ⟨h1, by omega⟩

/-! ## Claim C5 -/

theorem timer_tick_inv (tm : Timer) (h1 : tm.completions ≤ 1)
    (h2 : tm.intervalSet = true → tm.completions = 0) :
    tm.tick.completions ≤ 1 ∧
    (tm.tick.intervalSet = true → tm.tick.completions = 0) := by
  unfold Timer.tick
  by_cases hi : tm.intervalSet
  · have h0 := h2 hi
    simp only [hi, if_true]
    split_ifs with hr
    · simp [h0]
    · simp [h0, hi]
  · simp only [hi, Bool.false_eq_true, if_false]
    exact ⟨h1, fun hf => hf.elim⟩

theorem timer_run_inv (es : List TEvent) :
    ∀ tm : Timer, tm.completions ≤ 1 →
      (tm.intervalSet = true → tm.completions = 0) →
      (tm.run es).completions ≤ 1 := by
  induction es with
  | nil => intro tm h1 _; exact h1
  | cons e es ih =>
    intro tm h1 h2
    cases e with
    | tick =>
      obtain ⟨g1, g2⟩ := timer_tick_inv tm h1 h2
      exact ih tm.tick g1 g2
    | stop =>
      refine ih tm.stop (by simpa [Timer.stop] using h1) ?_
      simp [Timer.stop]
    | reset =>
      refine ih tm.reset (by simpa [Timer.reset, Timer.stop] using h1) ?_
      simp [Timer.reset, Timer.stop]

/-- C5: for a timer constructed with a positive duration and started
once, the completion callback fires at most once over any subsequent
sequence of ticks, stops and resets; `stop` on a timer whose interval
is already cleared (in particular, after completion) is a no-op; and
`stop` is idempotent. -/
theorem timer_completes_at_most_once (d : Int) (es : List TEvent)
    (h : 0 < d) :
    ((Timer.new d).start.run es).completions ≤ 1 ∧
    (∀ tm : Timer, tm.intervalSet = false → tm.stop = tm) ∧
    (∀ tm : Timer, tm.stop.stop = tm.stop) := by
  refine ⟨?_, ?_, ?_⟩
  · exact timer_run_inv es ((Timer.new d).start)
      (by simp [Timer.new, Timer.start])
      (by simp [Timer.new, Timer.start])
  · intro tm ht
    cases tm
    simp_all [Timer.stop]
  · intro tm
    simp [Timer.stop]

/-- Witness for C5 with a 3-second timer ticked to completion and then
stopped. -/
theorem timer_completes_at_most_once_witness :
    ((Timer.new 3).start.run [.tick, .tick, .tick, .stop]).completions ≤ 1 ∧
    (∀ tm : Timer, tm.intervalSet = false → tm.stop = tm) ∧
    (∀ tm : Timer, tm.stop.stop = tm.stop) :=
  timer_completes_at_most_once 3 [.tick, .tick, .tick, .stop] (by decide)

/-! ## Claim C7 -/

/-- A conversation state with an empty transcript, as after
`conversationHistory = []`. -/
def emptyConv : ConvState := ⟨[], none, none, none, false⟩

/-- The JSON body produced when the backend answers a respond call with
an error object (for example a 500 whose body is only a `detail`
field): none of the turn fields are present. -/
def errorBody : RoleplayPayload := ⟨none, none, none, none, false, none, none⟩

/-- C7 counterexample: a provider failure surfaced as an HTTP error
response (rather than a rejected fetch) reaches
`handleRoleplayResponse`, which appends a user turn with undefined text
to the transcript before throwing — so a partial turn IS recorded even
though the caller sees the failure toast. -/
theorem respond_http_failure_records_partial_turn_cex :
    (sendTextResponse emptyConv "Hello" (.payload errorBody)).2 =
      some "Failed to send message" ∧
    (sendTextResponse emptyConv "Hello" (.payload errorBody)).1.history =
      [⟨none, false⟩] ∧
    emptyConv.history = [] := by
  decide

/-- C7 as amended: when the provider request fails at the transport
level (the fetch rejects or times out), no partial turn is recorded —
the transcript, turn display, feedback panel and completion flag are
exactly as before the call — and the error is surfaced as the
"Failed to send message" toast so the caller can retry.  (When the
failure instead arrives as an HTTP error body, a user turn with
undefined text is appended before the error is caught.) -/
theorem respond_netfail_no_partial_turn (st : ConvState)
    (input : String)
    (h : (⟨trimChars input.data⟩ : String) ≠ "") :
    sendTextResponse st input .netFail =
      (st, some "Failed to send message") := by
  simp [sendTextResponse, h]

/-- Witness for the amended C7. -/
theorem respond_netfail_no_partial_turn_witness :
    sendTextResponse emptyConv "Hello" .netFail =
      (emptyConv, some "Failed to send message") :=
  respond_netfail_no_partial_turn emptyConv "Hello" (by decide)

/-! ## Claim C8 -/

/-- C8: the summary score shown when a roleplay session completes is
the rounded arithmetic mean of the three sub-scores of the final
analysis, and the running average shown during free talk is the rounded
arithmetic mean of the three session-average sub-scores. -/
theorem conversation_score_is_rounded_mean (a : Analysis)
    (xp : Option Int) (sa : SessionAverages) :
    (showSessionComplete a xp).avgScore =
      round ((a.fluency_score + a.grammar_score + a.vocabulary_score) / 3) ∧
    freeTalkAvgShown sa =
      round ((sa.fluency + sa.grammar + sa.vocabulary) / 3) := by
  constructor <;>
    simp [showSessionComplete, freeTalkAvgShown, jsRound, round_eq]

/-! ## Claim C9 -/

/-- C9: the CEFR threshold table is the fixed ascending table with
contiguous ranges, A1 covering `[0, 500)` and A2 covering `[500, 1500)`;
the level selected for an XP total is monotone in the total, so with the
post-award total (prior total plus a non-negative award) the level never
decreases; and the spec's scenario (490 XP before, 510 after) moves the
level from A1 to A2. -/
theorem cefr_table_monotone_lookup :
    levelThresholds .A1 = ⟨0, 500, some .A2⟩ ∧
    levelThresholds .A2 = ⟨500, 1500, some .B1⟩ ∧
    ((levelThresholds .A1).max = (levelThresholds .A2).min ∧
     (levelThresholds .A2).max = (levelThresholds .B1).min ∧
     (levelThresholds .B1).max = (levelThresholds .B2).min ∧
     (levelThresholds .B2).max = (levelThresholds .C1).min ∧
     (levelThresholds .C1).max = (levelThresholds .C2).min) ∧
    ((levelThresholds .A1).min < (levelThresholds .A2).min ∧
     (levelThresholds .A2).min < (levelThresholds .B1).min ∧
     (levelThresholds .B1).min < (levelThresholds .B2).min ∧
     (levelThresholds .B2).min < (levelThresholds .C1).min ∧
     (levelThresholds .C1).min < (levelThresholds .C2).min) ∧
    (∀ x y : Nat, x ≤ y → (lookupLevel x).rank ≤ (lookupLevel y).rank) ∧
    lookupLevel 490 = .A1 ∧ lookupLevel 510 = .A2 := by
  refine ⟨rfl, rfl, ⟨rfl, rfl, rfl, rfl, rfl⟩,
    ⟨by decide, by decide, by decide, by decide, by decide⟩, ?_, rfl, rfl⟩
  intro x y hxy
  unfold lookupLevel levelThresholds
  split_ifs <;> simp [CEFR.rank] <;> omega

/-- Witness for C9 at the spec's scenario totals. -/
theorem cefr_table_monotone_lookup_witness :
    (lookupLevel 490).rank ≤ (lookupLevel 510).rank :=
  cefr_table_monotone_lookup.2.2.2.2.1 490 510 (by decide)

/-! ## Claim C10 -/

/-- C10: a 401 response makes `request` clear the stored token and the
cached user before the `Unauthorized` error propagates, so
`isAuthenticated()` is false afterwards; every other outcome — network
failure, body-parse failure, non-401 error status, or success — leaves
the stored token and user unchanged. -/
theorem request_401_clears_auth (st : Storage) (status : Nat)
    (body : Except String Payload) (msg : String) :
    (status = 401 →
      request st (.response status body) =
        (⟨none, none⟩, .error .unauthorized) ∧
      isAuthenticated (request st (.response status body)).1 = false) ∧
    (status ≠ 401 → (request st (.response status body)).1 = st) ∧
    (request st (.netError msg)).1 = st := by
  refine ⟨?_, ?_, rfl⟩
  · intro h
    subst h
    constructor
    · simp [request, clearToken]
    · simp [request, clearToken, isAuthenticated]
  · intro h
    cases body with
    | error e => simp [request, h]
    | ok data =>
      by_cases hok : 200 ≤ status ∧ status ≤ 299 <;> simp [request, h, hok]

/-- Witness for C10: a 401 clears a present token and user; a 500 with
the same storage leaves them in place. -/
theorem request_401_clears_auth_witness :
    (request ⟨some "tok", some "usr"⟩ (.response 401 (.ok ⟨none, "d"⟩)) =
        (⟨none, none⟩, .error .unauthorized) ∧
      isAuthenticated
        (request ⟨some "tok", some "usr"⟩
          (.response 401 (.ok ⟨none, "d"⟩))).1 = false) ∧
    (request ⟨some "tok", some "usr"⟩
        (.response 500 (.ok ⟨none, "d"⟩))).1 = ⟨some "tok", some "usr"⟩ :=
  ⟨(request_401_clears_auth ⟨some "tok", some "usr"⟩ 401
      (.ok ⟨none, "d"⟩) "m").1 rfl,
   (request_401_clears_auth ⟨some "tok", some "usr"⟩ 500
      (.ok ⟨none, "d"⟩) "m").2.1 (by decide)⟩

end FluentAI
